import Mathlib

/-!
Shallow embedding of the blaze-mcp adapter (src/blaze_mcp/client.py and
src/blaze_mcp/tools/*) used to check the natural-language specification.

Python values flowing through tool arguments and HTTP bodies are modelled
by the `JValue` JSON type.  The mutable `BlazeClient` object is modelled by
an explicit `ClientState` record threaded through every call; the network
is an oracle `Net` mapping an outbound request to a response or an error.
Every outbound request is additionally recorded in a log field so that
claims about the exact path/query of a call can be stated.  Python
exceptions are modelled by `Except` with the state at the raise point.
-/

/-- JSON-ish value: the shape of Python objects handled by the adapter
(tool arguments, request/response bodies).  Object fields keep insertion
order, like Python dicts. -/
inductive JValue : Type where
  | null : JValue
  | bool (b : Bool) : JValue
  | int (n : Int) : JValue
  | str (s : String) : JValue
  | arr (xs : List JValue) : JValue
  | obj (fields : List (String × JValue)) : JValue

/-- Python `d[k]`-style first-match lookup in an insertion-ordered dict. -/
def lookupAssoc {α : Type} : List (String × α) → String → Option α
  | [], _ => none
  | (k, v) :: rest, key => if k = key then some v else lookupAssoc rest key

/-- Python `d[k] = v`: replace in place if the key exists, else append. -/
def dictSet {α : Type} : List (String × α) → String → α → List (String × α)
  | [], key, v => [(key, v)]
  | (k, w) :: rest, key, v =>
    if k = key then (k, v) :: rest else (k, w) :: dictSet rest key v

/-- Whether a value is Python `None`. -/
def JValue.isNull : JValue → Bool
  | .null => true
  | _ => false

/-- Python truthiness of a value (`if v:`). -/
def pyTruthy : JValue → Bool
  | .null => false
  | .bool b => b
  | .int n => n != 0
  | .str s => s != ""
  | .arr xs => !xs.isEmpty
  | .obj fs => !fs.isEmpty

/-- A single-quote character, used when rendering Python `repr`. -/
def sqChar : Char := Char.ofNat 39

mutual

/-- Python `repr` of a value (dict/list rendering is used only for values
that FHIR-conformant traffic never produces; scalars are exact). -/
def pyRepr : JValue → String
  | .null => "None"
  | .bool b => if b then "True" else "False"
  | .int n => toString n
  | .str s => String.singleton sqChar ++ s ++ String.singleton sqChar
  | .arr xs => "[" ++ pyReprElems xs ++ "]"
  | .obj fs => "\x7b" ++ pyReprFields fs ++ "\x7d"

def pyReprElems : List JValue → String
  | [] => ""
  | [x] => pyRepr x
  | x :: xs => pyRepr x ++ ", " ++ pyReprElems xs

def pyReprFields : List (String × JValue) → String
  | [] => ""
  | [(k, v)] => String.singleton sqChar ++ k ++ String.singleton sqChar ++ ": " ++ pyRepr v
  | (k, v) :: fs =>
    String.singleton sqChar ++ k ++ String.singleton sqChar ++ ": " ++ pyRepr v
      ++ ", " ++ pyReprFields fs

end

/-- Python `str()` of a value, as applied by f-string interpolation. -/
def pyStr : JValue → String
  | .str s => s
  | v => pyRepr v

/-- Python `len()`; raises `TypeError` on objects without a length. -/
def pyLenNat : JValue → Option Nat
  | .arr xs => some xs.length
  | .str s => some s.length
  | .obj fs => some fs.length
  | _ => none

/-- Uppercase hex digit (used by percent-encoding, which CPython emits
in uppercase). -/
def hexDigitU (n : Nat) : String :=
  if n < 10 then String.singleton (Char.ofNat (48 + n))
  else String.singleton (Char.ofNat (55 + n))

/-- Lowercase hex digit (used by JSON `\uXXXX` escapes). -/
def hexDigitL (n : Nat) : String :=
  if n < 10 then String.singleton (Char.ofNat (48 + n))
  else String.singleton (Char.ofNat (87 + n))

/-- UTF-8 bytes of a character, as natural numbers. -/
def utf8Bytes (c : Char) : List Nat :=
  let n := c.toNat
  if n < 128 then [n]
  else if n < 2048 then [192 + n / 64, 128 + n % 64]
  else if n < 65536 then [224 + n / 4096, 128 + (n / 64) % 64, 128 + n % 64]
  else [240 + n / 262144, 128 + (n / 4096) % 64, 128 + (n / 64) % 64, 128 + n % 64]

/-- `urllib.parse.quote_plus` on one character: always-safe characters are
ASCII alphanumerics and `_.-~`; space becomes `+`; everything else is
percent-encoded per UTF-8 byte in uppercase hex. -/
def quotePlusChar (c : Char) : String :=
  if c.isAlphanum || c = '_' || c = '.' || c = '-' || c = '~' then String.singleton c
  else if c = ' ' then "+"
  else String.join ((utf8Bytes c).map (fun b => "%" ++ hexDigitU (b / 16) ++ hexDigitU (b % 16)))

/-- `urllib.parse.quote_plus` on a string. -/
def quotePlus (s : String) : String :=
  String.join (s.data.map quotePlusChar)

/-- Four lowercase hex digits, for JSON `\uXXXX` escapes. -/
def hex4 (n : Nat) : String :=
  hexDigitL (n / 4096 % 16) ++ hexDigitL (n / 256 % 16)
    ++ hexDigitL (n / 16 % 16) ++ hexDigitL (n % 16)

/-- JSON string-character escaping as produced by `json.dumps` with the
default `ensure_ascii=True` (non-ASCII and control characters become
`\uXXXX`; astral characters become a surrogate pair). -/
def jsonEscapeChar (c : Char) : String :=
  let n := c.toNat
  if n = 34 then "\\\""
  else if c = '\\' then "\\\\"
  else if n = 10 then "\\n"
  else if n = 9 then "\\t"
  else if n = 13 then "\\r"
  else if n < 32 then "\\u" ++ hex4 n
  else if n < 127 then String.singleton c
  else if n < 65536 then "\\u" ++ hex4 n
  else
    "\\u" ++ hex4 (55296 + (n - 65536) / 1024) ++ "\\u" ++ hex4 (56320 + (n - 65536) % 1024)

/-- JSON string literal as produced by `json.dumps`. -/
def jsonStrLit (s : String) : String :=
  "\"" ++ String.join (s.data.map jsonEscapeChar) ++ "\""

/-- A run of spaces, for indentation. -/
def spacesStr (n : Nat) : String :=
  String.mk (List.replicate n ' ')

mutual

/-- `json.dumps(v, indent=2)` at nesting depth `d`. -/
def jDump (d : Nat) : JValue → String
  | .null => "null"
  | .bool b => if b then "true" else "false"
  | .int n => toString n
  | .str s => jsonStrLit s
  | .arr [] => "[]"
  | .arr (x :: xs) => "[\n" ++ jDumpElems d (x :: xs) ++ "\n" ++ spacesStr (2 * d) ++ "]"
  | .obj [] => "\x7b\x7d"
  | .obj (f :: fs) => "\x7b\n" ++ jDumpFields d (f :: fs) ++ "\n" ++ spacesStr (2 * d) ++ "\x7d"

def jDumpElems (d : Nat) : List JValue → String
  | [] => ""
  | [x] => spacesStr (2 * (d + 1)) ++ jDump (d + 1) x
  | x :: xs => spacesStr (2 * (d + 1)) ++ jDump (d + 1) x ++ ",\n" ++ jDumpElems d xs

def jDumpFields (d : Nat) : List (String × JValue) → String
  | [] => ""
  | [(k, v)] => spacesStr (2 * (d + 1)) ++ jsonStrLit k ++ ": " ++ jDump (d + 1) v
  | (k, v) :: fs =>
    spacesStr (2 * (d + 1)) ++ jsonStrLit k ++ ": " ++ jDump (d + 1) v ++ ",\n"
      ++ jDumpFields d fs

end

/-- `json.dumps(v, indent=2)` as called by the tool handlers. -/
def jsonDumpsIndent2 (v : JValue) : String :=
  jDump 0 v

/-- Python `s.rstrip("/")`: drop every trailing slash. -/
def rstripSlashes (s : String) : String :=
  String.mk (s.data.reverse.dropWhile (fun c => c = '/')).reverse

/-- The Python exceptions the adapter can raise or catch.  Message texts of
library exceptions (`httpx` errors, `TypeError` and friends) are abbreviated;
no claim depends on their exact wording, only on the `Error:` framing added
by the handlers. -/
inductive PyErr : Type where
  | keyError (k : String) : PyErr
  | attributeError (m : String) : PyErr
  | typeError (m : String) : PyErr
  | httpStatusError (code : Nat) : PyErr
  | transportError (m : String) : PyErr

/-- Python `str(e)` of an exception (`KeyError` renders as the quoted key,
as CPython does; the rest render their message). -/
def errStr : PyErr → String
  | .keyError k => String.singleton sqChar ++ k ++ String.singleton sqChar
  | .attributeError m => m
  | .typeError m => m
  | .httpStatusError code => "HTTP status error: " ++ toString code
  | .transportError m => m

/-- An outbound HTTP request: the base URL of the pooled handle it is sent
on, the verb, the path-plus-query, and the optional JSON body. -/
structure HttpRequest : Type where
  base : String
  method : String
  url : String
  body : Option JValue

/-- An HTTP response: status code and JSON body. -/
structure HttpResp : Type where
  status : Nat
  body : JValue

/-- The network oracle: what the remote server (or the transport layer)
does with each outbound request. -/
def Net : Type := HttpRequest → Except PyErr HttpResp

/-- Environment-sourced settings (config.py); the request timeout is not
modelled, no claim depends on it. -/
structure AppSettings : Type where
  blazeBaseUrl : String
  adminToolsEnabled : Bool
  defaultPageSize : Int
  maxPageSize : Int

/-- The default settings values from config.py. -/
def defaultSettings : AppSettings :=
  { blazeBaseUrl := "http://localhost:8080/fhir"
    adminToolsEnabled := true
    defaultPageSize := 20
    maxPageSize := 100 }

/-- The mutable state of a `BlazeClient`: active base URL, the pool of
per-URL transport handles (an insertion-ordered map from base URL to a
handle id), a counter for fresh handle ids, the log of handle ids that
have been closed, and the log of outbound requests (the last two fields
instrument effects for the proofs; they have no Python counterpart). -/
structure ClientState : Type where
  baseUrl : String
  clients : List (String × Nat)
  nextHandle : Nat
  closed : List Nat
  log : List HttpRequest

/-- `BlazeClient.__init__`: `self._base_url = base_url or settings.blaze_base_url`. -/
def initClient (base : Option String) (S : AppSettings) : ClientState :=
  { baseUrl :=
      match base with
      | some s => if s != "" then s else S.blazeBaseUrl
      | none => S.blazeBaseUrl
    clients := []
    nextHandle := 0
    closed := []
    log := [] }

/-- `BlazeClient.set_base_url`: store the URL with trailing slashes stripped. -/
def setBaseUrl (st : ClientState) (url : String) : ClientState :=
  { st with baseUrl := rstripSlashes url }

/-- The URL a request is pooled under: `base_url or self._base_url`
(an empty override string is falsy and falls back, like Python `or`). -/
def resolvedUrl (st : ClientState) (override : Option String) : String :=
  match override with
  | some u => if u != "" then u else st.baseUrl
  | none => st.baseUrl

/-- `BlazeClient._get_client`: resolve `base_url or self._base_url`, then
return the pooled handle for that URL, creating one lazily on first use. -/
def getClientHandle (st : ClientState) (override : Option String) : Nat × ClientState :=
  let url := resolvedUrl st override
  match lookupAssoc st.clients url with
  | some h => (h, st)
  | none =>
    (st.nextHandle,
     { st with
        clients := st.clients ++ [(url, st.nextHandle)]
        nextHandle := st.nextHandle + 1 })

/-- `BlazeClient.close`: close every pooled handle and clear the pool. -/
def closeAll (st : ClientState) : ClientState :=
  { st with
      closed := st.closed ++ st.clients.map (fun p => p.2)
      clients := [] }

/-- State after the `_get_client()` call that precedes every request. -/
def poolSt (st : ClientState) : ClientState :=
  (getClientHandle st none).2

/-- The request an operation sends, on the handle for the active base URL. -/
def reqOf (st : ClientState) (method url : String) (body : Option JValue) : HttpRequest :=
  { base := (poolSt st).baseUrl, method := method, url := url, body := body }

/-- State after getting the pooled handle and recording the request. -/
def afterReq (st : ClientState) (method url : String) (body : Option JValue) : ClientState :=
  { poolSt st with log := (poolSt st).log ++ [reqOf st method url body] }

/-- Issue one request: get the pooled handle, send, and return the raw
response (or propagate the transport error with the state so far). -/
def doRequest (net : Net) (st : ClientState) (method url : String) (body : Option JValue) :
    Except (PyErr × ClientState) (HttpResp × ClientState) :=
  match net (reqOf st method url body) with
  | .error e => .error (e, afterReq st method url body)
  | .ok resp => .ok (resp, afterReq st method url body)

/-- `httpx` success statuses (`raise_for_status` raises outside 2xx). -/
def isSuccessStatus (s : Nat) : Bool :=
  decide (200 ≤ s ∧ s < 300)

/-- Issue one request, `raise_for_status`, and return `response.json()`. -/
def requestJson (net : Net) (st : ClientState) (method url : String) (body : Option JValue) :
    Except (PyErr × ClientState) (JValue × ClientState) :=
  match doRequest net st method url body with
  | .error e => .error e
  | .ok (resp, st1) =>
    if isSuccessStatus resp.status then .ok (resp.body, st1)
    else .error (.httpStatusError resp.status, st1)

/-- `urlencode` of one key/value pair with `doseq=True`: a sequence value
becomes one `k=elt` pair per element; any other value becomes a single
pair, `str()`-converted and quoted. -/
def encodePair (k : String) (v : JValue) : List String :=
  match v with
  | .arr xs => xs.map (fun x => quotePlus k ++ "=" ++ quotePlus (pyStr x))
  | _ => [quotePlus k ++ "=" ++ quotePlus (pyStr v)]

/-- `urllib.parse.urlencode(params, doseq=True)` over an insertion-ordered
dict. -/
def urlencodeDoseq (params : List (String × JValue)) : String :=
  String.intercalate "&" (params.flatMap (fun p => encodePair p.1 p.2))

/-- `BlazeClient._build_url`: callers passing Python `None` for the params
dict are modelled by passing `[]` — `if params:` treats `None` and `{}`
identically.  Entries whose value is `None` are dropped before encoding. -/
def buildUrl (path : String) (params : List (String × JValue)) : String :=
  if params.isEmpty then path
  else
    let filtered := params.filter (fun p => !(p.2.isNull))
    if filtered.isEmpty then path
    else path ++ "?" ++ urlencodeDoseq filtered

/-- `BlazeClient.read`.  Arguments the handlers pass unvalidated are
modelled as `JValue` and converted by `pyStr` where the Python code
interpolates them into an f-string. -/
def clientRead (net : Net) (st : ClientState) (resourceType resourceId : JValue) :
    Except (PyErr × ClientState) (JValue × ClientState) :=
  requestJson net st "GET" ("/" ++ pyStr resourceType ++ "/" ++ pyStr resourceId) none

/-- `BlazeClient.vread`. -/
def clientVread (net : Net) (st : ClientState) (resourceType resourceId versionId : JValue) :
    Except (PyErr × ClientState) (JValue × ClientState) :=
  requestJson net st "GET"
    ("/" ++ pyStr resourceType ++ "/" ++ pyStr resourceId ++ "/_history/" ++ pyStr versionId)
    none

/-- `dict(params or {})`: an empty/None params value becomes the empty
dict; a dict is copied; anything else raises. -/
def pyDictOf (v : JValue) : Except PyErr (List (String × JValue)) :=
  if pyTruthy v then
    match v with
    | .obj fs => .ok fs
    | _ => .error (.typeError "cannot convert to dict")
  else .ok []

/-- Truthiness of the optional `count` argument (`if count:`). -/
def countTruthy (count : Option Int) : Bool :=
  match count with
  | some n => n != 0
  | none => false

/-- `BlazeClient.search`. -/
def clientSearch (net : Net) (st : ClientState) (resourceType : JValue) (params : JValue)
    (count : Option Int) : Except (PyErr × ClientState) (JValue × ClientState) :=
  match pyDictOf params with
  | .error e => .error (e, st)
  | .ok ps =>
    let searchParams :=
      if countTruthy count then dictSet ps "_count" (JValue.int ((count.getD 0))) else ps
    requestJson net st "GET" (buildUrl ("/" ++ pyStr resourceType) searchParams) none

/-- `BlazeClient.search_system`. -/
def clientSearchSystem (net : Net) (st : ClientState) (params : JValue) (count : Option Int) :
    Except (PyErr × ClientState) (JValue × ClientState) :=
  match pyDictOf params with
  | .error e => .error (e, st)
  | .ok ps =>
    let searchParams :=
      if countTruthy count then dictSet ps "_count" (JValue.int ((count.getD 0))) else ps
    requestJson net st "GET" (buildUrl "/" searchParams) none

/-- `BlazeClient.create`. -/
def clientCreate (net : Net) (st : ClientState) (resourceType resource : JValue) :
    Except (PyErr × ClientState) (JValue × ClientState) :=
  requestJson net st "POST" ("/" ++ pyStr resourceType) (some resource)

/-- `BlazeClient.update`. -/
def clientUpdate (net : Net) (st : ClientState) (resourceType resourceId resource : JValue) :
    Except (PyErr × ClientState) (JValue × ClientState) :=
  requestJson net st "PUT" ("/" ++ pyStr resourceType ++ "/" ++ pyStr resourceId)
    (some resource)

/-- `BlazeClient.delete`: `raise_for_status`, then `status_code == 204`. -/
def clientDelete (net : Net) (st : ClientState) (resourceType resourceId : JValue) :
    Except (PyErr × ClientState) (Bool × ClientState) :=
  match doRequest net st "DELETE" ("/" ++ pyStr resourceType ++ "/" ++ pyStr resourceId) none with
  | .error e => .error e
  | .ok (resp, st1) =>
    if isSuccessStatus resp.status then .ok (decide (resp.status = 204), st1)
    else .error (.httpStatusError resp.status, st1)

/-- `BlazeClient.history`: params is `{"_count": count} if count else None`. -/
def clientHistory (net : Net) (st : ClientState) (resourceType resourceId count : JValue) :
    Except (PyErr × ClientState) (JValue × ClientState) :=
  let params := if pyTruthy count then [("_count", count)] else []
  requestJson net st "GET"
    (buildUrl ("/" ++ pyStr resourceType ++ "/" ++ pyStr resourceId ++ "/_history") params)
    none

/-- `BlazeClient.history_type`. -/
def clientHistoryType (net : Net) (st : ClientState) (resourceType count : JValue) :
    Except (PyErr × ClientState) (JValue × ClientState) :=
  let params := if pyTruthy count then [("_count", count)] else []
  requestJson net st "GET" (buildUrl ("/" ++ pyStr resourceType ++ "/_history") params) none

/-- `BlazeClient.transaction`. -/
def clientTransaction (net : Net) (st : ClientState) (bundle : JValue) :
    Except (PyErr × ClientState) (JValue × ClientState) :=
  requestJson net st "POST" "/" (some bundle)

/-- `BlazeClient.capabilities`. -/
def clientCapabilities (net : Net) (st : ClientState) :
    Except (PyErr × ClientState) (JValue × ClientState) :=
  requestJson net st "GET" "/metadata" none

/-- `BlazeClient.patient_everything`. -/
def clientPatientEverything (net : Net) (st : ClientState)
    (patientId startV endV count : JValue) :
    Except (PyErr × ClientState) (JValue × ClientState) :=
  let params0 : List (String × JValue) := []
  let params1 := if pyTruthy startV then params0 ++ [("start", startV)] else params0
  let params2 := if pyTruthy endV then params1 ++ [("end", endV)] else params1
  let params3 := if pyTruthy count then params2 ++ [("_count", count)] else params2
  requestJson net st "GET"
    (buildUrl ("/Patient/" ++ pyStr patientId ++ "/$everything") params3) none

/-- `BlazeClient.evaluate_measure`. -/
def clientEvaluateMeasure (net : Net) (st : ClientState)
    (measureId periodStart periodEnd subject : JValue) :
    Except (PyErr × ClientState) (JValue × ClientState) :=
  let params0 := [("periodStart", periodStart), ("periodEnd", periodEnd)]
  let params1 := if pyTruthy subject then params0 ++ [("subject", subject)] else params0
  requestJson net st "GET"
    (buildUrl ("/Measure/" ++ pyStr measureId ++ "/$evaluate-measure") params1) none

/-- `BlazeClient.graphql`. -/
def clientGraphql (net : Net) (st : ClientState) (query vars : JValue) :
    Except (PyErr × ClientState) (JValue × ClientState) :=
  let body0 : List (String × JValue) := [("query", query)]
  let body1 := if pyTruthy vars then dictSet body0 "variables" vars else body0
  requestJson net st "POST" "/$graphql" (some (JValue.obj body1))

/-- `BlazeClient.validate_code`. -/
def clientValidateCode (net : Net) (st : ClientState) (system code display : JValue) :
    Except (PyErr × ClientState) (JValue × ClientState) :=
  let params0 := [("system", system), ("code", code)]
  let params1 := if pyTruthy display then dictSet params0 "display" display else params0
  requestJson net st "GET" (buildUrl "/CodeSystem/$validate-code" params1) none

/-- `BlazeClient.expand_valueset`. -/
def clientExpandValueset (net : Net) (st : ClientState)
    (valuesetId urlV filterText count : JValue) :
    Except (PyErr × ClientState) (JValue × ClientState) :=
  let params0 : List (String × JValue) := []
  let params1 := if pyTruthy urlV then dictSet params0 "url" urlV else params0
  let params2 := if pyTruthy filterText then dictSet params1 "filter" filterText else params1
  let params3 := if pyTruthy count then dictSet params2 "count" count else params2
  let endpoint :=
    if pyTruthy valuesetId then "/ValueSet/" ++ pyStr valuesetId ++ "/$expand"
    else "/ValueSet/$expand"
  requestJson net st "GET" (buildUrl endpoint params3) none

/-- `BlazeClient.lookup_code`. -/
def clientLookupCode (net : Net) (st : ClientState) (system code : JValue) :
    Except (PyErr × ClientState) (JValue × ClientState) :=
  requestJson net st "GET" (buildUrl "/CodeSystem/$lookup" [("system", system), ("code", code)])
    none

/-- `BlazeClient.totals`. -/
def clientTotals (net : Net) (st : ClientState) :
    Except (PyErr × ClientState) (JValue × ClientState) :=
  requestJson net st "GET" "/$totals" none

/-- `BlazeClient.compact`. -/
def clientCompact (net : Net) (st : ClientState) (columnFamily : JValue) :
    Except (PyErr × ClientState) (JValue × ClientState) :=
  let params := if pyTruthy columnFamily then [("column-family", columnFamily)] else []
  requestJson net st "POST" (buildUrl "/$compact" params) none

/-- `BlazeClient.reindex`. -/
def clientReindex (net : Net) (st : ClientState) (resourceType searchParam : JValue) :
    Except (PyErr × ClientState) (JValue × ClientState) :=
  let params0 : List (String × JValue) := []
  let params1 := if pyTruthy resourceType then dictSet params0 "type" resourceType else params0
  let params2 :=
    if pyTruthy searchParam then dictSet params1 "search-param" searchParam else params1
  requestJson net st "POST" (buildUrl "/$re-index" params2) none

/-- Python `s.startswith(pre)`: character-wise prefix test. -/
def pyStartsWith (s pre : String) : Bool :=
  List.isPrefixOf pre.data s.data

/-- Read a required argument (`arguments[k]`), raising `KeyError` when
missing; the paired state is the state at the raise point. -/
def argE (args : List (String × JValue)) (k : String) (st : ClientState) :
    Except (PyErr × ClientState) JValue :=
  match lookupAssoc args k with
  | some v => .ok v
  | none => .error (.keyError k, st)

/-- Attribute access `v.get(k, d)`: only dicts have `.get`; anything else
raises `AttributeError`. -/
def jGetD (v : JValue) (k : String) (d : JValue) : Except PyErr JValue :=
  match v with
  | .obj fs => .ok ((lookupAssoc fs k).getD d)
  | _ => .error (.attributeError "get")

/-- The value of `test_url` after the optional strip, computed before the
try block in `test_connection`: an absent key yields `None`; a falsy value
is kept as-is; a truthy string is stripped of trailing slashes; a truthy
non-string raises `AttributeError` at `.rstrip` — outside any try. -/
def testUrlValue (args : List (String × JValue)) : Except PyErr JValue :=
  let v := (lookupAssoc args "url").getD JValue.null
  if pyTruthy v then
    match v with
    | .str s => .ok (JValue.str (rstripSlashes s))
    | _ => .error (.attributeError "rstrip")
  else .ok v

/-- The body of the try block in `test_connection`: optionally switch to
the override URL, fetch the capability statement, restore the previous URL
(success path only — the except branch performs no restore), and format
the report. -/
def testConnectionAttempt (net : Net) (st : ClientState) (tv : JValue) :
    Except (PyErr × ClientState) (List String × ClientState) :=
  let useOverride := pyTruthy tv
  let oldUrl := st.baseUrl
  let st1 := if useOverride then setBaseUrl st (pyStr tv) else st
  match clientCapabilities net st1 with
  | .error e => .error e
  | .ok (caps, st2) =>
    let st3 := if useOverride then setBaseUrl st2 oldUrl else st2
    match jGetD caps "software" (JValue.obj []) with
    | .error e => .error (e, st3)
    | .ok software =>
      match jGetD software "name" (JValue.str "Unknown") with
      | .error e => .error (e, st3)
      | .ok nameV =>
        match jGetD software "version" (JValue.str "Unknown") with
        | .error e => .error (e, st3)
        | .ok versionV =>
          match jGetD caps "fhirVersion" (JValue.str "Unknown") with
          | .error e => .error (e, st3)
          | .ok fvV =>
            let target := if useOverride then pyStr tv else st3.baseUrl
            .ok (["Connection successful to " ++ target ++ "\n  Server: " ++ pyStr nameV
              ++ " " ++ pyStr versionV ++ "\n  FHIR Version: " ++ pyStr fvV], st3)

/-- `handle_connection_tool` from tools/connection.py.  This is the one
handler group without a blanket try/except: argument errors escape to the
caller of the dispatcher. -/
def handleConnectionTool (net : Net) (st : ClientState) (name : String)
    (args : List (String × JValue)) :
    Except (PyErr × ClientState) (Option (List String) × ClientState) :=
  if name = "set_blaze_url" then
    match lookupAssoc args "url" with
    | none => .error (.keyError "url", st)
    | some v =>
      match v with
      | .str s =>
        let url := rstripSlashes s
        if !(pyStartsWith url "http://" || pyStartsWith url "https://") then
          .ok (some ["Error: URL must start with http:// or https://"], st)
        else
          let oldUrl := st.baseUrl
          let st1 := setBaseUrl st url
          .ok (some ["Blaze URL updated:\n  Previous: " ++ oldUrl ++ "\n  Current:  " ++ url],
            st1)
      | _ => .error (.attributeError "rstrip", st)
  else if name = "get_blaze_url" then
    .ok (some ["Current Blaze URL: " ++ st.baseUrl], st)
  else if name = "test_connection" then
    match testUrlValue args with
    | .error e => .error (e, st)
    | .ok tv =>
      match testConnectionAttempt net st tv with
      | .ok (txt, st2) => .ok (some txt, st2)
      | .error (e, stE) =>
        let target := if pyTruthy tv then pyStr tv else stE.baseUrl
        .ok (some ["Connection failed to " ++ target ++ "\n  Error: " ++ errStr e], stE)
  else .ok (none, st)

/-- The try-block body of `handle_crud_tool` from tools/crud.py. -/
def crudBody (net : Net) (st : ClientState) (name : String)
    (args : List (String × JValue)) :
    Except (PyErr × ClientState) (Option (List String) × ClientState) :=
  if name = "read_resource" then
    match argE args "resource_type" st with
    | .error e => .error e
    | .ok rt =>
      match argE args "resource_id" st with
      | .error e => .error e
      | .ok rid =>
        match clientRead net st rt rid with
        | .error e => .error e
        | .ok (result, st1) => .ok (some [jsonDumpsIndent2 result], st1)
  else if name = "vread_resource" then
    match argE args "resource_type" st with
    | .error e => .error e
    | .ok rt =>
      match argE args "resource_id" st with
      | .error e => .error e
      | .ok rid =>
        match argE args "version_id" st with
        | .error e => .error e
        | .ok vid =>
          match clientVread net st rt rid vid with
          | .error e => .error e
          | .ok (result, st1) => .ok (some [jsonDumpsIndent2 result], st1)
  else if name = "create_resource" then
    match argE args "resource_type" st with
    | .error e => .error e
    | .ok rt =>
      match argE args "resource" st with
      | .error e => .error e
      | .ok res =>
        match clientCreate net st rt res with
        | .error e => .error e
        | .ok (result, st1) => .ok (some [jsonDumpsIndent2 result], st1)
  else if name = "update_resource" then
    match argE args "resource_type" st with
    | .error e => .error e
    | .ok rt =>
      match argE args "resource_id" st with
      | .error e => .error e
      | .ok rid =>
        match argE args "resource" st with
        | .error e => .error e
        | .ok res =>
          match clientUpdate net st rt rid res with
          | .error e => .error e
          | .ok (result, st1) => .ok (some [jsonDumpsIndent2 result], st1)
  else if name = "delete_resource" then
    match argE args "resource_type" st with
    | .error e => .error e
    | .ok rt =>
      match argE args "resource_id" st with
      | .error e => .error e
      | .ok rid =>
        match clientDelete net st rt rid with
        | .error e => .error e
        | .ok (deleted, st1) =>
          .ok (some ["Resource deleted: " ++ (if deleted then "True" else "False")], st1)
  else if name = "get_history" then
    match argE args "resource_type" st with
    | .error e => .error e
    | .ok rt =>
      match argE args "resource_id" st with
      | .error e => .error e
      | .ok rid =>
        match clientHistory net st rt rid ((lookupAssoc args "count").getD JValue.null) with
        | .error e => .error e
        | .ok (result, st1) => .ok (some [jsonDumpsIndent2 result], st1)
  else if name = "transaction" then
    match argE args "bundle" st with
    | .error e => .error e
    | .ok bundle =>
      match clientTransaction net st bundle with
      | .error e => .error e
      | .ok (result, st1) => .ok (some [jsonDumpsIndent2 result], st1)
  else .ok (none, st)

/-- `handle_crud_tool`: any exception in the body becomes in-band
`Error: {e}` text, keeping the state mutations made before the raise. -/
def handleCrudTool (net : Net) (st : ClientState) (name : String)
    (args : List (String × JValue)) : Option (List String) × ClientState :=
  match crudBody net st name args with
  | .ok r => r
  | .error (e, stE) => (some ["Error: " ++ errStr e], stE)

/-- The page-size computation at the top of `handle_search_tool`:
`count = arguments.get("count", settings.default_page_size)` then
`count = min(count, settings.max_page_size)`.  A Python bool is an int
(`min(True, m)` compares it as 1/0); other non-ints make `min` raise
`TypeError`. -/
def searchCount (S : AppSettings) (args : List (String × JValue)) : Except PyErr Int :=
  let v := (lookupAssoc args "count").getD (JValue.int S.defaultPageSize)
  match v with
  | .int n => .ok (min n S.maxPageSize)
  | .bool b => .ok (min (if b then (1 : Int) else 0) S.maxPageSize)
  | _ => .error (.typeError "min unsupported operand")

/-- The bundle summary line built by `handle_search_tool`. -/
def searchSummary (result : JValue) : Except PyErr String :=
  match result with
  | .obj fs =>
    let total := (lookupAssoc fs "total").getD (JValue.str "unknown")
    let entries := (lookupAssoc fs "entry").getD (JValue.arr [])
    match pyLenNat entries with
    | none => .error (.typeError "object has no len")
    | some n =>
      .ok ("Found " ++ pyStr total ++ " total results, returning " ++ toString n
        ++ " entries.\n\n" ++ jsonDumpsIndent2 result)
  | _ => .error (.attributeError "get")

/-- The try-block body of `handle_search_tool` from tools/search.py; note
the page-size clamp is computed before the tool name is inspected, exactly
as in the source. -/
def searchBody (S : AppSettings) (net : Net) (st : ClientState) (name : String)
    (args : List (String × JValue)) :
    Except (PyErr × ClientState) (Option (List String) × ClientState) :=
  match searchCount S args with
  | .error e => .error (e, st)
  | .ok count =>
    if name = "search_resources" then
      match argE args "resource_type" st with
      | .error e => .error e
      | .ok rt =>
        match clientSearch net st rt ((lookupAssoc args "params").getD JValue.null)
            (some count) with
        | .error e => .error e
        | .ok (result, st1) =>
          match searchSummary result with
          | .error e => .error (e, st1)
          | .ok txt => .ok (some [txt], st1)
    else if name = "search_system" then
      match clientSearchSystem net st ((lookupAssoc args "params").getD JValue.null)
          (some count) with
      | .error e => .error e
      | .ok (result, st1) =>
        match searchSummary result with
        | .error e => .error (e, st1)
        | .ok txt => .ok (some [txt], st1)
    else .ok (none, st)

/-- `handle_search_tool` with its blanket catch. -/
def handleSearchTool (S : AppSettings) (net : Net) (st : ClientState) (name : String)
    (args : List (String × JValue)) : Option (List String) × ClientState :=
  match searchBody S net st name args with
  | .ok r => r
  | .error (e, stE) => (some ["Error: " ++ errStr e], stE)

/-- The try-block body of `handle_terminology_tool` from tools/terminology.py. -/
def terminologyBody (net : Net) (st : ClientState) (name : String)
    (args : List (String × JValue)) :
    Except (PyErr × ClientState) (Option (List String) × ClientState) :=
  if name = "validate_code" then
    match argE args "system" st with
    | .error e => .error e
    | .ok system =>
      match argE args "code" st with
      | .error e => .error e
      | .ok code =>
        match clientValidateCode net st system code
            ((lookupAssoc args "display").getD JValue.null) with
        | .error e => .error e
        | .ok (result, st1) => .ok (some [jsonDumpsIndent2 result], st1)
  else if name = "expand_valueset" then
    match clientExpandValueset net st ((lookupAssoc args "valueset_id").getD JValue.null)
        ((lookupAssoc args "url").getD JValue.null)
        ((lookupAssoc args "filter").getD JValue.null)
        ((lookupAssoc args "count").getD JValue.null) with
    | .error e => .error e
    | .ok (result, st1) => .ok (some [jsonDumpsIndent2 result], st1)
  else if name = "lookup_code" then
    match argE args "system" st with
    | .error e => .error e
    | .ok system =>
      match argE args "code" st with
      | .error e => .error e
      | .ok code =>
        match clientLookupCode net st system code with
        | .error e => .error e
        | .ok (result, st1) => .ok (some [jsonDumpsIndent2 result], st1)
  else .ok (none, st)

/-- `handle_terminology_tool` with its blanket catch. -/
def handleTerminologyTool (net : Net) (st : ClientState) (name : String)
    (args : List (String × JValue)) : Option (List String) × ClientState :=
  match terminologyBody net st name args with
  | .ok r => r
  | .error (e, stE) => (some ["Error: " ++ errStr e], stE)

/-- One step of the histogram loop in `handle_advanced_tool`:
`resource_types[rt] = resource_types.get(rt, 0) + 1` on an
insertion-ordered dict. -/
def bumpCount : List (String × Nat) → String → List (String × Nat)
  | [], rt => [(rt, 1)]
  | (k, n) :: rest, rt =>
    if k = rt then (k, n + 1) :: rest else (k, n) :: bumpCount rest rt

/-- The per-resource-type histogram over the extracted type names. -/
def buildHist (ts : List String) : List (String × Nat) :=
  ts.foldl bumpCount []

/-- Count recorded in a histogram for a type (0 when absent). -/
def countOf (h : List (String × Nat)) (rt : String) : Nat :=
  (lookupAssoc h rt).getD 0

/-- `entry.get("resource", {}).get("resourceType", "Unknown")` for one
bundle entry; non-dict shapes raise `AttributeError` as in Python.  A
non-string `resourceType` value (which FHIR forbids) is keyed by its
`str()` rendering. -/
def entryTypeName (entry : JValue) : Except PyErr String :=
  match entry with
  | .obj fs =>
    match (lookupAssoc fs "resource").getD (JValue.obj []) with
    | .obj rfs =>
      .ok
        (match lookupAssoc rfs "resourceType" with
         | some v => pyStr v
         | none => "Unknown")
    | _ => .error (.attributeError "get")
  | _ => .error (.attributeError "get")

/-- Extract the resource-type name of every entry, failing like the Python
loop does at the first bad entry. -/
def entryTypeNames : List JValue → Except PyErr (List String)
  | [] => .ok []
  | e :: es =>
    match entryTypeName e with
    | .error err => .error err
    | .ok t =>
      match entryTypeNames es with
      | .error err => .error err
      | .ok ts => .ok (t :: ts)

/-- Lexicographic comparison on code points, matching Python string order. -/
def charListLe : List Char → List Char → Bool
  | [], _ => true
  | _ :: _, [] => false
  | a :: as, b :: bs =>
    if a.toNat < b.toNat then true
    else if b.toNat < a.toNat then false
    else charListLe as bs

/-- String order used by `sorted` on the histogram keys. -/
def strLeBool (a b : String) : Bool :=
  charListLe a.data b.data

/-- Insertion step of the sort over histogram items. -/
def insertSorted (x : String × Nat) : List (String × Nat) → List (String × Nat)
  | [] => [x]
  | y :: ys => if strLeBool x.1 y.1 then x :: y :: ys else y :: insertSorted x ys

/-- `sorted(resource_types.items())` (keys are unique, so the key order
determines the result). -/
def sortByKey (l : List (String × Nat)) : List (String × Nat) :=
  l.foldr insertSorted []

/-- The `  - {rt}: {count}` lines of the compartment summary. -/
def histLines : List (String × Nat) → String
  | [] => ""
  | (rt, n) :: rest => "  - " ++ rt ++ ": " ++ toString n ++ "\n" ++ histLines rest

/-- The textual summary built by `handle_advanced_tool` for a
`patient_everything` result bundle.  A non-list `entry` value makes the
Python loop raise (with a shape-dependent exception); both are caught by
the handler, so a single error kind models them. -/
def patientEverythingSummary (pid result : JValue) : Except PyErr String :=
  match result with
  | .obj fs =>
    match (lookupAssoc fs "entry").getD (JValue.arr []) with
    | .arr entries =>
      match entryTypeNames entries with
      | .error e => .error e
      | .ok ts =>
        .ok ("Patient " ++ pyStr pid ++ " has " ++ toString entries.length
          ++ " resources:\n" ++ histLines (sortByKey (buildHist ts)) ++ "\n"
          ++ jsonDumpsIndent2 result)
    | _ => .error (.typeError "not iterable")
  | _ => .error (.attributeError "get")

/-- The try-block body of `handle_advanced_tool` from tools/advanced.py. -/
def advancedBody (net : Net) (st : ClientState) (name : String)
    (args : List (String × JValue)) :
    Except (PyErr × ClientState) (Option (List String) × ClientState) :=
  if name = "patient_everything" then
    match argE args "patient_id" st with
    | .error e => .error e
    | .ok pid =>
      match clientPatientEverything net st pid ((lookupAssoc args "start").getD JValue.null)
          ((lookupAssoc args "end").getD JValue.null)
          ((lookupAssoc args "count").getD JValue.null) with
      | .error e => .error e
      | .ok (result, st1) =>
        match patientEverythingSummary pid result with
        | .error e => .error (e, st1)
        | .ok txt => .ok (some [txt], st1)
  else if name = "evaluate_measure" then
    match argE args "measure_id" st with
    | .error e => .error e
    | .ok mid =>
      match argE args "period_start" st with
      | .error e => .error e
      | .ok ps =>
        match argE args "period_end" st with
        | .error e => .error e
        | .ok pe =>
          match clientEvaluateMeasure net st mid ps pe
              ((lookupAssoc args "subject").getD JValue.null) with
          | .error e => .error e
          | .ok (result, st1) => .ok (some [jsonDumpsIndent2 result], st1)
  else if name = "graphql_query" then
    match argE args "query" st with
    | .error e => .error e
    | .ok q =>
      match clientGraphql net st q ((lookupAssoc args "variables").getD JValue.null) with
      | .error e => .error e
      | .ok (result, st1) => .ok (some [jsonDumpsIndent2 result], st1)
  else .ok (none, st)

/-- `handle_advanced_tool` with its blanket catch. -/
def handleAdvancedTool (net : Net) (st : ClientState) (name : String)
    (args : List (String × JValue)) : Option (List String) × ClientState :=
  match advancedBody net st name args with
  | .ok r => r
  | .error (e, stE) => (some ["Error: " ++ errStr e], stE)

/-- The `  {name}: {value}` lines of the totals report. -/
def totalsLines : List JValue → Except PyErr String
  | [] => .ok ""
  | p :: ps =>
    match p with
    | .obj fs =>
      let nameV := (lookupAssoc fs "name").getD (JValue.str "")
      let valueV := (lookupAssoc fs "valueUnsignedInt").getD (JValue.int 0)
      match totalsLines ps with
      | .error e => .error e
      | .ok rest => .ok ("  " ++ pyStr nameV ++ ": " ++ pyStr valueV ++ "\n" ++ rest)
    | _ => .error (.attributeError "get")

/-- The try-block body of `handle_admin_tool` from tools/admin.py (the
enabled-flag check happens before this body runs). -/
def adminBody (net : Net) (st : ClientState) (name : String)
    (args : List (String × JValue)) :
    Except (PyErr × ClientState) (Option (List String) × ClientState) :=
  if name = "get_totals" then
    match clientTotals net st with
    | .error e => .error e
    | .ok (result, st1) =>
      match result with
      | .obj fs =>
        match (lookupAssoc fs "parameter").getD (JValue.arr []) with
        | .arr ps =>
          match totalsLines ps with
          | .error e => .error (e, st1)
          | .ok lines => .ok (some ["Resource totals:\n" ++ lines], st1)
        | _ => .error (.typeError "not iterable", st1)
      | _ => .error (.attributeError "get", st1)
  else if name = "run_compaction" then
    match clientCompact net st ((lookupAssoc args "column_family").getD JValue.null) with
    | .error e => .error e
    | .ok (result, st1) =>
      .ok (some ["Compaction triggered: " ++ jsonDumpsIndent2 result], st1)
  else if name = "run_reindex" then
    match clientReindex net st ((lookupAssoc args "resource_type").getD JValue.null)
        ((lookupAssoc args "search_param").getD JValue.null) with
    | .error e => .error e
    | .ok (result, st1) =>
      .ok (some ["Re-index triggered: " ++ jsonDumpsIndent2 result], st1)
  else .ok (none, st)

/-- `handle_admin_tool`: returns None immediately when the admin flag is
disabled; otherwise runs the body under the blanket catch. -/
def handleAdminTool (S : AppSettings) (net : Net) (st : ClientState) (name : String)
    (args : List (String × JValue)) : Option (List String) × ClientState :=
  if !S.adminToolsEnabled then (none, st)
  else
    match adminBody net st name args with
    | .ok r => r
    | .error (e, stE) => (some ["Error: " ++ errStr e], stE)

/-- Tool names of the connection group (descriptors carry prose and JSON
schemas the claims never inspect, so only the names are modelled). -/
def connectionToolNames : List String :=
  ["set_blaze_url", "get_blaze_url", "test_connection"]

/-- Tool names of the CRUD group. -/
def crudToolNames : List String :=
  ["read_resource", "vread_resource", "create_resource", "update_resource",
   "delete_resource", "get_history", "transaction"]

/-- Tool names of the search group. -/
def searchToolNames : List String :=
  ["search_resources", "search_system"]

/-- Tool names of the terminology group. -/
def terminologyToolNames : List String :=
  ["validate_code", "expand_valueset", "lookup_code"]

/-- Tool names of the advanced group. -/
def advancedToolNames : List String :=
  ["patient_everything", "evaluate_measure", "graphql_query"]

/-- `get_admin_tools`: empty when the admin flag is disabled. -/
def getAdminToolNames (S : AppSettings) : List String :=
  if !S.adminToolsEnabled then []
  else ["get_totals", "run_compaction", "run_reindex"]

/-- `get_all_tools`: the full catalog in registration order. -/
def getAllToolNames (S : AppSettings) : List String :=
  connectionToolNames ++ crudToolNames ++ searchToolNames ++ terminologyToolNames
    ++ advancedToolNames ++ getAdminToolNames S

/-- `handle_tool_call` from tools/__init__.py: try each group in order,
first non-None result wins, otherwise the literal unknown-tool text.  The
connection handler is called unguarded, so its exceptions propagate. -/
def handleToolCall (S : AppSettings) (net : Net) (st : ClientState) (name : String)
    (args : List (String × JValue)) :
    Except (PyErr × ClientState) (List String × ClientState) :=
  match handleConnectionTool net st name args with
  | .error e => .error e
  | .ok (some r, st1) => .ok (r, st1)
  | .ok (none, st1) =>
    match handleCrudTool net st1 name args with
    | (some r, st2) => .ok (r, st2)
    | (none, st2) =>
      match handleSearchTool S net st2 name args with
      | (some r, st3) => .ok (r, st3)
      | (none, st3) =>
        match handleTerminologyTool net st3 name args with
        | (some r, st4) => .ok (r, st4)
        | (none, st4) =>
          match handleAdvancedTool net st4 name args with
          | (some r, st5) => .ok (r, st5)
          | (none, st5) =>
            match handleAdminTool S net st5 name args with
            | (some r, st6) => .ok (r, st6)
            | (none, st6) => .ok (["Unknown tool: " ++ name], st6)

/-- Whether a dispatch completed without an exception escaping. -/
def exceptIsOk {ε α : Type} : Except ε α → Bool
  | .ok _ => true
  | .error _ => false

/-- Whether a string ends with a slash character. -/
def endsWithSlash (s : String) : Bool :=
  match s.data.getLast? with
  | some c => c = '/'
  | none => false

/-- The active base URL recorded in the state a connection-tool call
returns, whether it returned normally or raised. -/
def resultBaseUrl
    (r : Except (PyErr × ClientState) (Option (List String) × ClientState)) : String :=
  match r with
  | .ok (_, st) => st.baseUrl
  | .error (_, st) => st.baseUrl

/-- The base URLs of the requests logged by a connection-tool call. -/
def resultLogBases
    (r : Except (PyErr × ClientState) (Option (List String) × ClientState)) : List String :=
  match r with
  | .ok (_, st) => st.log.map (fun q => q.base)
  | .error (_, st) => st.log.map (fun q => q.base)

/-- The URLs (path plus query) of the requests a handler call logged. -/
def handlerLogUrls (p : Option (List String) × ClientState) : List String :=
  p.2.log.map (fun q => q.url)

/-- The base URLs currently holding a pooled transport handle. -/
def poolKeys (st : ClientState) : List String :=
  st.clients.map Prod.fst

/-- Fixture: a server answering every request with 200 and an empty JSON
object. -/
def netOkEmpty : Net := fun _ => .ok { status := 200, body := JValue.obj [] }

/-- Fixture: a transport failing every request with a connection error. -/
def netConnFail : Net := fun _ => .error (.transportError "boom")

/-- Fixture: a server answering every request with status 204. -/
def net204 : Net := fun _ => .ok { status := 204, body := JValue.null }

/-- Fixture: a client initialised at base URL `http://a`. -/
def stHttpA : ClientState := initClient (some "http://a") defaultSettings

/-- Fixture: a client initialised like the repository's own test suite. -/
def stTestFhir : ClientState := initClient (some "http://test:8080/fhir") defaultSettings

/-- Fixture: the specification's three-entry compartment bundle with
resource types Patient, Observation, Observation. -/
def exampleBundle : JValue :=
  JValue.obj [("resourceType", JValue.str "Bundle"),
    ("entry", JValue.arr [
      JValue.obj [("resource", JValue.obj [("resourceType", JValue.str "Patient")])],
      JValue.obj [("resource", JValue.obj [("resourceType", JValue.str "Observation")])],
      JValue.obj [("resource", JValue.obj [("resourceType", JValue.str "Observation")])]])]

/-- Fixture: a server answering every request with the example bundle. -/
def netBundle : Net := fun _ => .ok { status := 200, body := exampleBundle }

/-- Settings with the admin-tools flag disabled. -/
def adminOffSettings : AppSettings := { defaultSettings with adminToolsEnabled := false }

/-- Fixture: a pool that has served requests for two distinct base URLs. -/
def stTwoPool : ClientState :=
  (getClientHandle (getClientHandle stHttpA (some "http://x")).2 (some "http://y")).2

/-- The text payload a connection-tool call returned (`none` when the tool
was not recognized or the call raised). -/
def resultText
    (r : Except (PyErr × ClientState) (Option (List String) × ClientState)) :
    Option (List String) :=
  match r with
  | .ok (txt, _) => txt
  | .error _ => none

/-- The (base, method, url) triples of the requests a façade call logged,
whether it returned or raised. -/
def jsonResultReqs (r : Except (PyErr × ClientState) (JValue × ClientState)) :
    List (String × String × String) :=
  match r with
  | .ok (_, st) => st.log.map (fun q => (q.base, q.method, q.url))
  | .error (_, st) => st.log.map (fun q => (q.base, q.method, q.url))

theorem head?_dropWhile_false {α : Type} (p : α → Bool) (l : List α) (a : α)
    (h : (l.dropWhile p).head? = some a) : p a = false := by
  induction l with
  | nil => simp [List.dropWhile] at h
  | cons x xs ih =>
    rw [List.dropWhile_cons] at h
    by_cases hx : p x = true
    · rw [if_pos hx] at h
      exact ih h
    · rw [if_neg hx] at h
      simp at h
      simp at hx
      rwa [h] at hx

theorem dropWhile_dropWhile_self {α : Type} (p : α → Bool) (l : List α) :
    (l.dropWhile p).dropWhile p = l.dropWhile p := by
  induction l with
  | nil => rfl
  | cons x xs ih =>
    rw [List.dropWhile_cons]
    by_cases hx : p x = true
    · rw [if_pos hx]
      exact ih
    · rw [if_neg hx, List.dropWhile_cons, if_neg hx]

theorem rstripSlashes_data (s : String) :
    (rstripSlashes s).data = (s.data.reverse.dropWhile (fun c => c = '/')).reverse := rfl

theorem endsWithSlash_rstrip (s : String) :
    endsWithSlash (rstripSlashes s) = false := by
  unfold endsWithSlash
  rw [rstripSlashes_data, List.getLast?_reverse]
  cases h : (s.data.reverse.dropWhile (fun c => c = '/')).head? with
  | none => rfl
  | some c =>
    have := head?_dropWhile_false (fun c => c = '/') s.data.reverse c h
    simpa using this

theorem rstripSlashes_idem (s : String) :
    rstripSlashes (rstripSlashes s) = rstripSlashes s := by
  show String.mk ((rstripSlashes s).data.reverse.dropWhile (fun c => c = '/')).reverse
    = rstripSlashes s
  rw [rstripSlashes_data, List.reverse_reverse, dropWhile_dropWhile_self]
  rfl

/-- C10: every base-URL write strips trailing slashes before storing —
`set_base_url` stores the stripped value, the stripped value never ends in
a slash, stripping is idempotent (so `set_blaze_url`'s double strip stores
the stripped form), `get_blaze_url` reports the stored value verbatim, a
`set_blaze_url` of `http://x/` leaves `http://x` active, and a
`test_connection` override of `http://b///` probes on base `http://b`. -/
theorem base_url_always_stripped :
    (∀ st u, (setBaseUrl st u).baseUrl = rstripSlashes u)
    ∧ (∀ s, endsWithSlash (rstripSlashes s) = false)
    ∧ (∀ s, rstripSlashes (rstripSlashes s) = rstripSlashes s)
    ∧ (∀ net st args, handleConnectionTool net st "get_blaze_url" args
        = .ok (some ["Current Blaze URL: " ++ st.baseUrl], st))
    ∧ resultBaseUrl (handleConnectionTool netOkEmpty stHttpA "set_blaze_url"
        [("url", JValue.str "http://x/")]) = "http://x"
    ∧ resultLogBases (handleConnectionTool netOkEmpty stHttpA "test_connection"
        [("url", JValue.str "http://b///")]) = ["http://b"] := by
  refine ⟨fun st u => rfl, endsWithSlash_rstrip, rstripSlashes_idem,
    fun net st args => rfl, by decide, by decide⟩

/-- C3: a `set_blaze_url` invocation whose url argument, after
trailing-slash stripping, starts with neither `http://` nor `https://`
returns the in-band scheme error and leaves the whole client state —
active URL, pool, and request log — exactly unchanged, so no network
call is made. -/
theorem setBlazeUrl_rejects_bad_scheme (net : Net) (st : ClientState)
    (args : List (String × JValue)) (s : String)
    (hurl : lookupAssoc args "url" = some (JValue.str s))
    (h1 : pyStartsWith (rstripSlashes s) "http://" = false)
    (h2 : pyStartsWith (rstripSlashes s) "https://" = false) :
    handleConnectionTool net st "set_blaze_url" args =
      .ok (some ["Error: URL must start with http:// or https://"], st) := by
  unfold handleConnectionTool
  rw [if_pos rfl, hurl]
  simp [h1, h2]

/-- C3 witness: `set_blaze_url` with `ftp://x` is rejected in-band with the
state untouched. -/
theorem setBlazeUrl_rejects_bad_scheme_witness :
    handleConnectionTool netOkEmpty stHttpA "set_blaze_url"
        [("url", JValue.str "ftp://x")] =
      .ok (some ["Error: URL must start with http:// or https://"], stHttpA) :=
  setBlazeUrl_rejects_bad_scheme netOkEmpty stHttpA [("url", JValue.str "ftp://x")]
    "ftp://x" rfl (by decide) (by decide)

/-- C1 (code-bug evidence): with an override URL, `test_connection`
restores the previous active URL when the capability fetch succeeds, but
when the fetch raises, the handler returns in-band failure text with the
override URL still active — the restore is missing from the failure path,
although the tool's own description promises to test "without changing
the default". -/
theorem testConnection_failure_skips_restore :
    stHttpA.baseUrl = "http://a"
    ∧ resultBaseUrl (handleConnectionTool netOkEmpty stHttpA "test_connection"
        [("url", JValue.str "http://b")]) = "http://a"
    ∧ resultBaseUrl (handleConnectionTool netConnFail stHttpA "test_connection"
        [("url", JValue.str "http://b")]) = "http://b"
    ∧ resultText (handleConnectionTool netConnFail stHttpA "test_connection"
        [("url", JValue.str "http://b")]) =
      some ["Connection failed to http://b\n  Error: boom"] := by
  refine ⟨rfl, by decide, by decide, by decide⟩

/-- C2 counterexample: dispatching `set_blaze_url` with no arguments raises
`KeyError` at `arguments["url"]`, which escapes `handle_tool_call` to the
inbound protocol layer instead of becoming in-band text. -/
theorem setBlazeUrl_missing_url_raises :
    handleToolCall defaultSettings netOkEmpty stHttpA "set_blaze_url" [] =
      .error (.keyError "url", stHttpA) := rfl

theorem testUrlValue_ok_of_wellformed (args : List (String × JValue))
    (h : ∀ v, lookupAssoc args "url" = some v → pyTruthy v = true →
      ∃ s, v = JValue.str s) :
    ∃ tv, testUrlValue args = .ok tv := by
  unfold testUrlValue
  cases hl : lookupAssoc args "url" with
  | none => exact ⟨JValue.null, rfl⟩
  | some v =>
    by_cases ht : pyTruthy v = true
    · obtain ⟨s, hs⟩ := h v hl ht
      subst hs
      simp [ht]
    · simp [Option.getD]
      rw [if_neg ht]
      exact ⟨v, rfl⟩

theorem connectionHandler_no_raise (net : Net) (st : ClientState) (name : String)
    (args : List (String × JValue))
    (h1 : name = "set_blaze_url" → ∃ s, lookupAssoc args "url" = some (JValue.str s))
    (h2 : name = "test_connection" → ∀ v, lookupAssoc args "url" = some v →
      pyTruthy v = true → ∃ s, v = JValue.str s) :
    exceptIsOk (handleConnectionTool net st name args) = true := by
  by_cases hn1 : name = "set_blaze_url"
  · subst hn1
    obtain ⟨s, hs⟩ := h1 rfl
    unfold handleConnectionTool
    rw [if_pos rfl, hs]
    dsimp only
    split
    · rfl
    · rfl
  · by_cases hn2 : name = "get_blaze_url"
    · subst hn2
      unfold handleConnectionTool
      rw [if_neg (by decide), if_pos rfl]
      rfl
    · by_cases hn3 : name = "test_connection"
      · subst hn3
        unfold handleConnectionTool
        rw [if_neg (by decide), if_neg (by decide), if_pos rfl]
        obtain ⟨tv, htv⟩ := testUrlValue_ok_of_wellformed args (h2 rfl)
        rw [htv]
        dsimp only
        cases hA : testConnectionAttempt net st tv with
        | ok p =>
          obtain ⟨txt, st2⟩ := p
          rfl
        | error ep =>
          obtain ⟨e, stE⟩ := ep
          rfl
      · unfold handleConnectionTool
        rw [if_neg hn1, if_neg hn2, if_neg hn3]
        rfl

/-- C2 (amended): dispatch propagates no exception and always returns an
in-band text payload, provided the connection-management url arguments are
well-formed — `set_blaze_url` is given a string `url`, and any truthy
`url` given to `test_connection` is a string; with the `url` argument
missing (or not a string), the connection handler's `KeyError` (or
`AttributeError`) escapes, as the counterexample shows.  Every other
handler group runs under a blanket try/except, so for those tools every
error — a failing façade call or a missing required argument alike — is
converted to in-band `Error: {message}` text. -/
theorem dispatch_no_exception_escape (S : AppSettings) (net : Net) (st : ClientState)
    (name : String) (args : List (String × JValue))
    (h1 : name = "set_blaze_url" → ∃ s, lookupAssoc args "url" = some (JValue.str s))
    (h2 : name = "test_connection" → ∀ v, lookupAssoc args "url" = some v →
      pyTruthy v = true → ∃ s, v = JValue.str s) :
    exceptIsOk (handleToolCall S net st name args) = true := by
  have hok := connectionHandler_no_raise net st name args h1 h2
  unfold handleToolCall
  cases hE : handleConnectionTool net st name args with
  | error ep =>
    rw [hE] at hok
    exact absurd hok (by simp [exceptIsOk])
  | ok p =>
    obtain ⟨ro, st1⟩ := p
    cases ro with
    | some r => rfl
    | none =>
      dsimp only
      split
      · rfl
      · split
        · rfl
        · split
          · rfl
          · split
            · rfl
            · split
              · rfl
              · rfl

/-- C2 witness: a well-formed `set_blaze_url` call dispatches without an
exception escaping. -/
theorem dispatch_no_exception_escape_witness :
    exceptIsOk (handleToolCall defaultSettings netOkEmpty stHttpA "set_blaze_url"
      [("url", JValue.str "http://c")]) = true :=
  dispatch_no_exception_escape defaultSettings netOkEmpty stHttpA "set_blaze_url"
    [("url", JValue.str "http://c")]
    (fun _ => ⟨"http://c", rfl⟩)
    (fun h => absurd h (by decide))

/-- C4: the page size handed to the façade is `min(count, max_page_size)`
when a count argument is supplied and `default_page_size` when it is not
(given the configured default does not exceed the configured maximum, as
the shipped defaults 20/100 satisfy); with the defaults, requesting
count=500 puts `_count=100` in the outbound query string, for both
`search_resources` and `search_system`. -/
theorem search_pagesize_clamp :
    (∀ S args n, lookupAssoc args "count" = some (JValue.int n) →
      searchCount S args = .ok (min n S.maxPageSize))
    ∧ (∀ S args, lookupAssoc args "count" = none →
      S.defaultPageSize ≤ S.maxPageSize →
      searchCount S args = .ok S.defaultPageSize)
    ∧ handlerLogUrls (handleSearchTool defaultSettings netOkEmpty stTestFhir
        "search_resources"
        [("resource_type", JValue.str "Patient"), ("count", JValue.int 500)])
      = ["/Patient?_count=100"]
    ∧ handlerLogUrls (handleSearchTool defaultSettings netOkEmpty stTestFhir
        "search_system" [("count", JValue.int 500)]) = ["/?_count=100"] := by
  refine ⟨?_, ?_, by decide, by decide⟩
  · intro S args n h
    simp [searchCount, h]
  · intro S args h hle
    simp [searchCount, h, min_eq_left hle]

/-- C4 witness: count=500 clamps to 100 and an absent count yields the
default 20 under the shipped settings. -/
theorem search_pagesize_clamp_witness :
    searchCount defaultSettings [("count", JValue.int 500)] = .ok 100
    ∧ searchCount defaultSettings [] = .ok 20 := by
  constructor
  · have h := search_pagesize_clamp.1 defaultSettings [("count", JValue.int 500)] 500 rfl
    simpa using h
  · exact search_pagesize_clamp.2.1 defaultSettings [] rfl (by decide)

/-- C5: `_build_url` depends only on the non-null parameter entries (null
values are dropped before URL-encoding), a list value serializes as
repeated query parameters rather than comma-joined, and
`search("Patient", {"family": "Test"}, count=10)` issues exactly
`GET /Patient?family=Test&_count=10` against the active base URL. -/
theorem buildUrl_drops_null_and_repeats :
    (∀ path ps, buildUrl path (ps.filter (fun p => !(p.2.isNull))) = buildUrl path ps)
    ∧ buildUrl "/Observation" [("code", JValue.arr [JValue.str "a", JValue.str "b"])]
      = "/Observation?code=a&code=b"
    ∧ jsonResultReqs (clientSearch netOkEmpty stTestFhir (JValue.str "Patient")
        (JValue.obj [("family", JValue.str "Test")]) (some 10))
      = [("http://test:8080/fhir", "GET", "/Patient?family=Test&_count=10")] := by
  refine ⟨?_, by decide, by decide⟩
  intro path ps
  have hidem : (ps.filter (fun p => !(p.2.isNull))).filter (fun p => !(p.2.isNull))
      = ps.filter (fun p => !(p.2.isNull)) := by
    simp [List.filter_filter]
  by_cases h0 : ps.isEmpty = true
  · have hps : ps = [] := by
      cases ps with
      | nil => rfl
      | cons a l => simp [List.isEmpty] at h0
    subst hps
    rfl
  · by_cases h1 : (ps.filter (fun p => !(p.2.isNull))).isEmpty = true
    · unfold buildUrl
      rw [if_pos h1, if_neg h0]
      dsimp only
      rw [if_pos h1]
    · unfold buildUrl
      rw [if_neg ?hne, if_neg h0]
      case hne =>
        rw [hidem] at *
        intro hc
        rw [List.isEmpty_iff] at hc
        rw [hc] at h1
        exact h1 rfl
      dsimp only
      rw [hidem]

/-- C6: `delete` returns true iff the response status is exactly 204,
false for any other 2xx status, and raises an HTTP status error for a
non-success status, all after logging exactly one DELETE request for
`/{type}/{id}`. -/
theorem delete_true_iff_204 (net : Net) (st : ClientState) (rt rid : JValue)
    (resp : HttpResp)
    (hnet : net (reqOf st "DELETE" ("/" ++ pyStr rt ++ "/" ++ pyStr rid) none) = .ok resp) :
    (200 ≤ resp.status ∧ resp.status < 300 →
      clientDelete net st rt rid =
        .ok (decide (resp.status = 204),
          afterReq st "DELETE" ("/" ++ pyStr rt ++ "/" ++ pyStr rid) none))
    ∧ (clientDelete net st rt rid =
        .ok (true, afterReq st "DELETE" ("/" ++ pyStr rt ++ "/" ++ pyStr rid) none)
      ↔ resp.status = 204)
    ∧ (¬(200 ≤ resp.status ∧ resp.status < 300) →
      clientDelete net st rt rid =
        .error (.httpStatusError resp.status,
          afterReq st "DELETE" ("/" ++ pyStr rt ++ "/" ++ pyStr rid) none)) := by
  have hD : clientDelete net st rt rid =
      (if isSuccessStatus resp.status then
        .ok (decide (resp.status = 204),
          afterReq st "DELETE" ("/" ++ pyStr rt ++ "/" ++ pyStr rid) none)
      else
        .error (.httpStatusError resp.status,
          afterReq st "DELETE" ("/" ++ pyStr rt ++ "/" ++ pyStr rid) none)) := by
    unfold clientDelete doRequest
    rw [hnet]
  have hSucc : isSuccessStatus resp.status = true ↔ 200 ≤ resp.status ∧ resp.status < 300 := by
    simp [isSuccessStatus]
  refine ⟨?_, ⟨?_, ?_⟩, ?_⟩
  · intro h2
    rw [hD, if_pos (hSucc.mpr h2)]
  · intro hEq
    by_cases hs : isSuccessStatus resp.status = true
    · rw [hD, if_pos hs] at hEq
      injection hEq with hpair
      have hfst := congrArg Prod.fst hpair
      exact of_decide_eq_true hfst
    · rw [hD, if_neg hs] at hEq
      exact absurd hEq (by simp)
  · intro h204
    have hs : isSuccessStatus resp.status = true := by
      rw [hSucc, h204]
      exact ⟨by omega, by omega⟩
    rw [hD, if_pos hs, h204]
    rfl
  · intro hns
    rw [hD, if_neg (fun h => hns (hSucc.mp h))]

/-- C6 witness: a 204 response makes `delete` return true. -/
theorem delete_true_iff_204_witness :
    clientDelete net204 stHttpA (JValue.str "Patient") (JValue.str "1") =
      .ok (true, afterReq stHttpA "DELETE"
        ("/" ++ pyStr (JValue.str "Patient") ++ "/" ++ pyStr (JValue.str "1")) none) := by
  have h := delete_true_iff_204 net204 stHttpA (JValue.str "Patient") (JValue.str "1")
    { status := 204, body := JValue.null } rfl
  exact (h.2.1).mpr rfl

theorem countOf_cons (k : String) (m : Nat) (rest : List (String × Nat)) (rt : String) :
    countOf ((k, m) :: rest) rt = if k = rt then m else countOf rest rt := by
  by_cases h : k = rt <;> simp [countOf, lookupAssoc, h]

theorem countOf_bumpCount (acc : List (String × Nat)) (x rt : String) :
    countOf (bumpCount acc x) rt = countOf acc rt + (if x = rt then 1 else 0) := by
  induction acc with
  | nil =>
    by_cases h : x = rt <;> simp [bumpCount, countOf, lookupAssoc, h]
  | cons hd tl ih =>
    obtain ⟨k, n⟩ := hd
    by_cases hkx : k = x
    · subst hkx
      by_cases hkrt : k = rt
      · subst hkrt
        simp [bumpCount, countOf_cons]
      · simp [bumpCount, countOf_cons, hkrt]
    · by_cases hkrt : k = rt
      · have hxrt : ¬x = rt := fun hx => hkx (hkrt.trans hx.symm)
        have hrtx : ¬rt = x := fun hx => hxrt hx.symm
        simp [bumpCount, hkx, countOf_cons, hkrt, hxrt, hrtx]
      · simp [bumpCount, hkx, countOf_cons, hkrt, ih]

theorem countOf_foldl (ts : List String) (acc : List (String × Nat)) (rt : String) :
    countOf (ts.foldl bumpCount acc) rt = countOf acc rt + ts.count rt := by
  induction ts generalizing acc with
  | nil => simp
  | cons x ts ih =>
    simp only [List.foldl_cons]
    rw [ih, countOf_bumpCount, List.count_cons]
    by_cases h : x = rt
    · simp [h]
      omega
    · simp [h, Ne.symm h]

set_option maxRecDepth 100000 in
/-- C7: the compartment-fetch histogram records, for every resource type,
exactly the number of bundle entries of that type, and on the
specification's example bundle (types Patient, Observation, Observation)
the handler's summary reports a total of 3 entries with `Observation: 2`
before `Patient: 1`, prefixed to the pretty-printed JSON. -/
theorem patientEverything_histogram :
    (∀ ts rt, countOf (buildHist ts) rt = ts.count rt)
    ∧ (handleAdvancedTool netBundle stTestFhir "patient_everything"
        [("patient_id", JValue.str "123")]).1
      = some ["Patient 123 has 3 resources:\n  - Observation: 2\n  - Patient: 1\n\n"
          ++ jsonDumpsIndent2 exampleBundle] := by
  constructor
  · intro ts rt
    have h := countOf_foldl ts [] rt
    simpa [buildHist, countOf, lookupAssoc] using h
  · decide

/-- C8: with the admin-tools flag disabled, the catalog contains none of
`get_totals`, `run_compaction`, `run_reindex`, and dispatching any of the
three names (with arguments carrying no `count` key, as their schemas
prescribe) invokes no handler and falls through to the literal
unknown-tool payload with the client state untouched. -/
theorem admin_disabled_excluded (S : AppSettings) (net : Net) (st : ClientState)
    (args : List (String × JValue)) (name : String)
    (hS : S.adminToolsEnabled = false)
    (hname : name = "get_totals" ∨ name = "run_compaction" ∨ name = "run_reindex")
    (hcount : lookupAssoc args "count" = none) :
    (name ∈ getAllToolNames S → False)
    ∧ handleToolCall S net st name args = .ok (["Unknown tool: " ++ name], st) := by
  constructor
  · intro hmem
    rcases hname with h | h | h <;> subst h <;>
      simp [getAllToolNames, getAdminToolNames, hS, connectionToolNames, crudToolNames,
        searchToolNames, terminologyToolNames, advancedToolNames] at hmem
  · rcases hname with h | h | h <;> subst h <;>
      simp [handleToolCall, handleConnectionTool, handleCrudTool, crudBody,
        handleSearchTool, searchBody, searchCount, hcount, handleTerminologyTool,
        terminologyBody, handleAdvancedTool, advancedBody, handleAdminTool, hS]

/-- C8 witness: with the flag off, `get_totals` is not listed and
dispatches to the unknown-tool text. -/
theorem admin_disabled_excluded_witness :
    ("get_totals" ∈ getAllToolNames adminOffSettings → False)
    ∧ handleToolCall adminOffSettings netOkEmpty stHttpA "get_totals" [] =
        .ok (["Unknown tool: " ++ "get_totals"], stHttpA) :=
  admin_disabled_excluded adminOffSettings netOkEmpty stHttpA [] "get_totals" rfl
    (Or.inl rfl) rfl

theorem resolvedUrl_congr (st st2 : ClientState) (u : Option String)
    (h : st.baseUrl = st2.baseUrl) : resolvedUrl st u = resolvedUrl st2 u := by
  cases u with
  | none => exact h
  | some s => simp [resolvedUrl, h]

theorem getClientHandle_eq (st : ClientState) (u : Option String) :
    getClientHandle st u =
      match lookupAssoc st.clients (resolvedUrl st u) with
      | some h => (h, st)
      | none =>
        (st.nextHandle,
         { st with
            clients := st.clients ++ [(resolvedUrl st u, st.nextHandle)]
            nextHandle := st.nextHandle + 1 }) := rfl

theorem lookupAssoc_append_single {α : Type} (l : List (String × α)) (k : String) (v : α)
    (h : lookupAssoc l k = none) : lookupAssoc (l ++ [(k, v)]) k = some v := by
  induction l with
  | nil => simp [lookupAssoc]
  | cons hd tl ih =>
    obtain ⟨k1, v1⟩ := hd
    by_cases hk : k1 = k
    · simp [lookupAssoc, hk] at h
    · simp only [lookupAssoc, hk, if_false, List.cons_append, if_neg hk] at h ⊢
      exact ih h

theorem lookupAssoc_eq_none_not_mem {α : Type} (l : List (String × α)) (k : String)
    (h : lookupAssoc l k = none) : k ∉ l.map Prod.fst := by
  induction l with
  | nil => simp
  | cons hd tl ih =>
    obtain ⟨k1, v1⟩ := hd
    by_cases hk : k1 = k
    · simp [lookupAssoc, hk] at h
    · simp only [lookupAssoc, if_neg hk] at h
      simp only [List.map_cons, List.mem_cons]
      rintro (he | he)
      · exact hk he.symm
      · exact ih h he

/-- C9: the transport pool holds at most one handle per distinct base URL
(distinct pool keys are preserved by every lookup), a handle is created
lazily — a lookup either leaves the pool unchanged or appends exactly one
fresh entry, and a second lookup for the same URL returns the same handle
without growing the pool (no eviction); `close` empties the pool and
closes every pooled handle, closing is idempotent, and a request after
close recreates a handle in a fresh pool. -/
theorem transport_pool_invariants :
    (∀ st u, (poolKeys st).Nodup → (poolKeys (getClientHandle st u).2).Nodup)
    ∧ (∀ st u, (getClientHandle st u).2.clients = st.clients
        ∨ (getClientHandle st u).2.clients
          = st.clients ++ [(resolvedUrl st u, st.nextHandle)])
    ∧ (∀ st u, getClientHandle (getClientHandle st u).2 u
        = ((getClientHandle st u).1, (getClientHandle st u).2))
    ∧ (∀ st, (closeAll st).clients = [] ∧ (closeAll st).closed
        = st.closed ++ st.clients.map Prod.snd)
    ∧ (∀ st, closeAll (closeAll st) = closeAll st)
    ∧ (∀ st u, (getClientHandle (closeAll st) u).2.clients
        = [(resolvedUrl (closeAll st) u, st.nextHandle)]) := by
  refine ⟨?_, ?_, ?_, ?_, ?_, ?_⟩
  · intro st u hnd
    rw [getClientHandle_eq]
    cases h : lookupAssoc st.clients (resolvedUrl st u) with
    | some hdl => exact hnd
    | none =>
      have hnm := lookupAssoc_eq_none_not_mem st.clients (resolvedUrl st u) h
      simp only [poolKeys] at hnd ⊢
      simp [List.nodup_append, hnd, hnm]
  · intro st u
    rw [getClientHandle_eq]
    cases h : lookupAssoc st.clients (resolvedUrl st u) with
    | some hdl => exact Or.inl rfl
    | none => exact Or.inr rfl
  · intro st u
    rw [getClientHandle_eq st u]
    cases h : lookupAssoc st.clients (resolvedUrl st u) with
    | some hdl =>
      dsimp only
      rw [getClientHandle_eq st u, h]
    | none =>
      dsimp only
      rw [getClientHandle_eq]
      have hres : resolvedUrl
          { st with
              clients := st.clients ++ [(resolvedUrl st u, st.nextHandle)]
              nextHandle := st.nextHandle + 1 } u = resolvedUrl st u :=
        resolvedUrl_congr _ _ u rfl
      rw [hres]
      dsimp only
      rw [lookupAssoc_append_single st.clients (resolvedUrl st u) st.nextHandle h]
  · intro st
    exact ⟨rfl, rfl⟩
  · intro st
    simp [closeAll]
  · intro st u
    rw [getClientHandle_eq]
    have hcl : (closeAll st).clients = [] := rfl
    rw [hcl]
    rfl

/-- C9 witness: after requests to two distinct base URLs, the pool keys
are distinct, closing empties the pool and closes both handles, and a
later request recreates a fresh handle. -/
theorem transport_pool_invariants_witness :
    (poolKeys (getClientHandle stTwoPool (some "http://z")).2).Nodup
    ∧ (closeAll stTwoPool).clients = []
    ∧ (closeAll stTwoPool).closed = stTwoPool.closed ++ stTwoPool.clients.map Prod.snd
    ∧ closeAll (closeAll stTwoPool) = closeAll stTwoPool
    ∧ (getClientHandle (closeAll stTwoPool) (some "http://x")).2.clients
      = [(resolvedUrl (closeAll stTwoPool) (some "http://x"), stTwoPool.nextHandle)] :=
  ⟨transport_pool_invariants.1 stTwoPool (some "http://z") (by decide),
   (transport_pool_invariants.2.2.2.1 stTwoPool).1,
   (transport_pool_invariants.2.2.2.1 stTwoPool).2,
   transport_pool_invariants.2.2.2.2.1 stTwoPool,
   transport_pool_invariants.2.2.2.2.2 stTwoPool (some "http://x")⟩
